import Mathlib

/-!
Verification of the Question Analysis → Connector Selection → Agent Execution
pipeline of the audit data collection wizard.  The definitions below are a
shallow embedding of the TypeScript source: the rule-based classifier and the
analyze route of the Express server, the persistence layer with its unique
(application_id, question_id) constraint, and the Step-3 / Step-4 wizard
components.  JavaScript truthiness on strings, numbers and optional values is
made explicit through small helper functions.
-/

namespace Audit

/-- JS `a || b` for a possibly-undefined string `a`: `undefined` and the empty
string are falsy. -/
def jsOr (a : Option String) (b : String) : String :=
  match a with
  | none => b
  | some s => if s = "" then b else s

/-- JS `a || b` where both operands may be undefined strings. -/
def jsOrOpt (a b : Option String) : Option String :=
  match a with
  | none => b
  | some s => if s = "" then b else some s

/-- JS `a || null` on a possibly-undefined string. -/
def jsOrNull (a : Option String) : Option String :=
  match a with
  | none => none
  | some s => if s = "" then none else some s

/-- JS `a || b` for a possibly-undefined number `a`: `undefined` and `0` are
falsy. -/
def jsOrNat (a : Option Nat) (b : Nat) : Nat :=
  match a with
  | none => b
  | some n => if n = 0 then b else n

/-- JS string interpolation of a possibly-undefined value. -/
def jsStr (a : Option String) : String :=
  match a with
  | none => "undefined"
  | some s => s

/-- Substring containment on character lists: JS `hay.includes(needle)`. -/
def containsSub (needle : List Char) (hay : List Char) : Bool :=
  match hay with
  | [] => needle.isPrefixOf []
  | _ :: rest => needle.isPrefixOf hay || containsSub needle rest

/-- JS `text.includes(sub)` on a lower-cased character list. -/
def includes (text : List Char) (sub : String) : Bool :=
  containsSub sub.data text

/-- JS `String.prototype.toLowerCase`, character by character. -/
def toLowerList (l : List Char) : List Char :=
  l.map Char.toLower

/-- JS `String.prototype.trim`: whitespace stripped from both ends. -/
def trimList (l : List Char) : List Char :=
  ((l.dropWhile Char.isWhitespace).reverse.dropWhile Char.isWhitespace).reverse

/-- A question record as the wizard and the routes see it: every field may be
absent, as on a plain JS object. -/
structure Question where
  id : Option String
  questionNumber : Option String
  process : Option String
  subProcess : Option String
  question : Option String
  text : Option String
deriving DecidableEq

namespace Routes

/-- `(question.question || question.text || '').toLowerCase()` from
`determineToolSuggestion`. -/
def lowerText (q : Question) : List Char :=
  toLowerList (jsOr q.question (jsOr q.text "")).data

/-- The keyword-rule chain of `determineToolSuggestion` applied to the
lower-cased text. -/
def classifyText (text : List Char) : String :=
  if includes text "database" || includes text "sql" || includes text "table" then
    "SQL Server"
  else if includes text "email" || includes text "outlook" || includes text "exchange" then
    "Outlook"
  else if includes text "servicenow" || includes text "snow" || includes text "ticket" then
    "ServiceNow"
  else if includes text "file" || includes text "document" || includes text "nas" then
    "NAS Path"
  else if includes text "gnosis" || includes text "knowledge" then
    "Gnosis Path"
  else
    "Manual Review"

/-- `determineToolSuggestion` of the Express routes file. -/
def determineToolSuggestion (q : Question) : String :=
  classifyText (lowerText q)

/-- The switch of `determineConnector` on the computed suggestion. -/
def connectorOf (suggestion : String) : String :=
  if suggestion = "SQL Server" then "sql_server"
  else if suggestion = "Outlook" then "outlook"
  else if suggestion = "ServiceNow" then "servicenow"
  else if suggestion = "NAS Path" then "nas_path"
  else if suggestion = "Gnosis Path" then "gnosis_path"
  else "manual"

/-- `determineConnector` of the Express routes file: a switch on the
suggestion. -/
def determineConnector (q : Question) : String :=
  connectorOf (determineToolSuggestion q)

/-- A persisted `question_analyses` row as the analyze route builds it.
Fields the route may leave undefined are optional. -/
structure AnalysisRow where
  applicationId : Nat
  questionId : Option String
  originalQuestion : Option String
  category : String
  subcategory : Option String
  aiPrompt : String
  toolSuggestion : String
  connectorReason : String
  connectorToUse : String
deriving DecidableEq

/-- The body of `POST /questions/analyze`: one analysis object per posted
question, built with the two helper functions and no validation. -/
def analyzeRouteAnalyses (applicationId : Nat) (questions : List Question) :
    List AnalysisRow :=
  questions.map fun q =>
    { applicationId := applicationId
      questionId := q.id
      originalQuestion := jsOrOpt q.question q.text
      category := jsOr q.process "General"
      subcategory := jsOrNull q.subProcess
      aiPrompt := "Analyze the question: \"" ++ jsStr (jsOrOpt q.question q.text) ++ "\""
      toolSuggestion := determineToolSuggestion q
      connectorReason :=
        "Based on the question content and category \"" ++ jsOr q.process "General" ++ "\""
      connectorToUse := determineConnector q }

/-- The unique key of `question_analyses`: the columns of the
`unique_application_question` constraint. -/
def keyOf (r : AnalysisRow) : Nat × Option String :=
  (r.applicationId, r.questionId)

/-- `DatabaseStorage.createQuestionAnalyses`: a plain INSERT of the batch.
The statement fails with a duplicate-key error as soon as a row's
(application_id, question_id) key is already present; on success the rows are
appended. -/
def createQuestionAnalyses :
    List AnalysisRow → List AnalysisRow → Except String (List AnalysisRow)
  | table, [] => Except.ok table
  | table, r :: rest =>
    if table.any fun t => keyOf t = keyOf r then
      Except.error "duplicate key value violates unique constraint unique_application_question"
    else
      createQuestionAnalyses (table ++ [r]) rest

end Routes

/-- `toolSuggestion` / `connectorToUse` are polymorphic over a single tool
name and a list of tool names. -/
inductive ToolSel where
  | single : String → ToolSel
  | multiple : List String → ToolSel
deriving DecidableEq

/-- `Array.isArray(x) ? x : [x]`. -/
def toolListOf : ToolSel → List String
  | ToolSel.single t => [t]
  | ToolSel.multiple ts => ts

/-- The `TOOL_ID_MAPPING` record shared by Step 3 and Step 4: legacy
snake_case tool ids to current display names. -/
def TOOL_ID_MAPPING : String → Option String := fun s =>
  if s = "sql_server" then some "SQL Server DB"
  else if s = "oracle_db" then some "Oracle DB"
  else if s = "gnosis" then some "Gnosis Document Repository"
  else if s = "jira" then some "Jira"
  else if s = "qtest" then some "QTest"
  else if s = "service_now" then some "ServiceNow"
  else none

/-- JS `TOOL_ID_MAPPING[tool] || tool`. -/
def mapTool (t : String) : String :=
  (TOOL_ID_MAPPING t).getD t

namespace StepThree

/-- A connector as the Step-3 component receives it from
`GET /api/connectors/ci/:ciId`. -/
structure ToolConnector where
  id : Nat
  connector_type : String
  ciId : String
  status : String
deriving DecidableEq

/-- A question analysis as the Step-3 component holds it in state. -/
structure QuestionAnalysis where
  questionId : String
  originalQuestion : String
  category : String
  subcategory : String
  aiPrompt : String
  toolSuggestion : ToolSel
  connectorReason : String
  connectorToUse : ToolSel
deriving DecidableEq

/-- The Step-3 readiness effect: `hasAnalyses && allQuestionsConfigured &&
isSaved`, where a question is configured when every suggested tool has a
connector of the (legacy-mapped) matching type and is a non-blank string. -/
def canProceedGate (analyses : List QuestionAnalysis)
    (connectors : List ToolConnector) (isSaved : Bool) : Bool :=
  decide (0 < analyses.length)
    && (analyses.all fun a =>
        (toolListOf a.toolSuggestion).all fun tool =>
          (connectors.any fun c => c.connector_type == mapTool tool)
            && !(tool == "") && !(trimList tool.data == []))
    && isSaved

/-- The fixed fallback analysis pushed when one question's analyze call
throws. -/
def fallbackAnalysis (q : Question) : QuestionAnalysis :=
  { questionId := jsOr q.id ""
    originalQuestion := jsOr q.question ""
    category := jsOr q.process "General"
    subcategory := jsOr q.subProcess "Unknown"
    aiPrompt := "Analyze audit question: " ++ jsOr q.question ""
    toolSuggestion := ToolSel.single "SQL Server DB"
    connectorReason := "Fallback due to analysis error"
    connectorToUse := ToolSel.single "SQL Server DB" }

/-- One iteration of the analyze loop: on success the first returned analysis
is kept (nothing when the response is empty), on error the fallback analysis
is pushed instead. -/
def perQuestion (api : Question → Except String (List QuestionAnalysis))
    (q : Question) : List QuestionAnalysis :=
  match api q with
  | Except.ok [] => []
  | Except.ok (a :: _) => [a]
  | Except.error _ => [fallbackAnalysis q]

/-- The `analyzeQuestionsMutation` loop: questions processed one by one, each
accumulating its result and bumping the processed count whether its call
succeeded or threw. Returns the accumulated analyses and the processed
count. -/
def analyzeAll (api : Question → Except String (List QuestionAnalysis)) :
    List Question → List QuestionAnalysis × Nat
  | [] => ([], 0)
  | q :: rest =>
    let done := analyzeAll api rest
    (perQuestion api q ++ done.1, done.2 + 1)

/-- `analyses.map((analysis, idx) => ...)` with the running index made
explicit. -/
def mapIdxFrom (f : Nat → QuestionAnalysis → QuestionAnalysis) :
    Nat → List QuestionAnalysis → List QuestionAnalysis
  | _, [] => []
  | i, a :: rest => f i a :: mapIdxFrom f (i + 1) rest

/-- `handleConnectorChange`: the analysis at `index` gets `connectorToUse`
set from its own `toolSuggestion` (both match arms return the suggestion);
the selected connector name is never consulted. -/
def handleConnectorChange (questionId connectorName : String) (index : Nat)
    (analyses : List QuestionAnalysis) : List QuestionAnalysis :=
  mapIdxFrom
    (fun idx a =>
      if idx = index then
        { a with
          connectorToUse :=
            match a.toolSuggestion with
            | ToolSel.multiple ts => ToolSel.multiple ts
            | ToolSel.single t => ToolSel.single t }
      else a)
    0 analyses

end StepThree

namespace StepFour

/-- Per-question execution statuses of Step 4. -/
inductive ExecStatus where
  | pending
  | running
  | completed
  | failed
  | no_connector
deriving DecidableEq

/-- A connector as the Step-4 component receives it. -/
structure ToolConnector where
  id : Nat
  connectorName : String
  connectorType : String
  ciId : String
  status : String
deriving DecidableEq

/-- A question analysis as the Step-4 component receives it: scalar tool
fields. -/
structure QuestionAnalysis where
  id : String
  originalQuestion : String
  category : String
  subcategory : String
  prompt : Option String
  toolSuggestion : String
  connectorReason : String
  connectorToUse : String
deriving DecidableEq

/-- The nested `analysis` payload a mock agent response may carry. -/
structure AnalysisPayload where
  executiveSummary : Option String
  riskLevel : Option String
  complianceStatus : Option String
deriving DecidableEq

/-- The response of `POST /api/agents/execute` as the component reads it. -/
structure AgentResponse where
  analysis : Option AnalysisPayload
  dataPoints : Option Nat
  findings : Option (List String)
deriving DecidableEq

/-- The normalized `result` object stored on a completed execution. -/
structure ResultPayload where
  data : String
  records : Nat
  source : String
  timestamp : String
  findings : List String
  riskLevel : String
  complianceStatus : String
deriving DecidableEq

/-- An entry of the `executions` record. -/
structure AgentExecution where
  questionId : String
  status : ExecStatus
  result : Option ResultPayload
  error : Option String
deriving DecidableEq

/-- Result normalization of a completed execution: every missing field gets a
default; a missing or zero `dataPoints` is replaced by
`Math.floor(Math.random() * 50) + 10`, modelled as `r % 50 + 10` for the
drawn value `r`. -/
def normalizeResult (resp : AgentResponse) (originalQuestion connectorName now : String)
    (r : Nat) : ResultPayload :=
  { data := jsOr (resp.analysis.bind AnalysisPayload.executiveSummary)
      ("Comprehensive data analysis completed for: " ++ originalQuestion)
    records := jsOrNat resp.dataPoints (r % 50 + 10)
    source := connectorName
    timestamp := now
    findings := resp.findings.getD []
    riskLevel := jsOr (resp.analysis.bind AnalysisPayload.riskLevel) "Low"
    complianceStatus := jsOr (resp.analysis.bind AnalysisPayload.complianceStatus) "Compliant" }

/-- `getConnectorForTool`: the first connector whose type equals the
legacy-mapped tool type and whose status is active. -/
def getConnectorForTool (connectors : List ToolConnector) (toolType : String) :
    Option ToolConnector :=
  connectors.find? fun c => c.connectorType == mapTool toolType && c.status == "active"

/-- The final execution record one analysis reaches in `executeAllAgents`:
no active connector ends it at `no_connector` with no agent call; otherwise
the agent call's own outcome decides between `completed` (with the
normalized result) and `failed` (with the error message). -/
def execFor (connectors : List ToolConnector)
    (api : String → Except String AgentResponse) (rand : String → Nat)
    (now : String) (a : QuestionAnalysis) : AgentExecution :=
  match getConnectorForTool connectors a.toolSuggestion with
  | none =>
    { questionId := a.id
      status := ExecStatus.no_connector
      result := none
      error := some "No connector configured for this tool type" }
  | some c =>
    match api a.id with
    | Except.error msg =>
      { questionId := a.id
        status := ExecStatus.failed
        result := none
        error := some msg }
    | Except.ok resp =>
      { questionId := a.id
        status := ExecStatus.completed
        result := some (normalizeResult resp a.originalQuestion c.connectorName now (rand a.id))
        error := none }

/-- `executeAllAgents`: every analysis dispatched independently; the batch is
the list of the per-question final records. -/
def executeAllAgents (connectors : List ToolConnector)
    (api : String → Except String AgentResponse) (rand : String → Nat)
    (now : String) (analyses : List QuestionAnalysis) : List AgentExecution :=
  analyses.map (execFor connectors api rand now)

/-- The Step-4 readiness effect: the execution set is non-empty and the
completed count equals its size. -/
def canProceedStep4 (execs : List AgentExecution) : Bool :=
  decide (0 < execs.length)
    && ((execs.countP fun e => e.status == ExecStatus.completed) == execs.length)

end StepFour

/-! Closed tool-type vocabularies.  `claimedToolVocab` is the closed
enumeration named by the specification; the two classifier vocabularies are
the value sets the rule-based classifier actually emits. -/

/-- The display names and legacy ids the specification declares as the closed
tool-type enumeration. -/
def claimedToolVocab : List String :=
  ["SQL Server DB", "Oracle DB", "Gnosis Document Repository", "Jira", "QTest",
   "ServiceNow", "sql_server", "oracle_db", "gnosis", "jira", "qtest", "service_now"]

/-- The values `determineToolSuggestion` can return. -/
def classifierToolVocab : List String :=
  ["SQL Server", "Outlook", "ServiceNow", "NAS Path", "Gnosis Path", "Manual Review"]

/-- The values `determineConnector` can return. -/
def classifierConnectorVocab : List String :=
  ["sql_server", "outlook", "servicenow", "nas_path", "gnosis_path", "manual"]

/-- The Step-3 readiness gate as the specification words it: every suggested
tool must have an ACTIVE connector of matching type.  Stated from the spec, to
be compared with the code's `canProceedGate`. -/
def specCanProceed (analyses : List StepThree.QuestionAnalysis)
    (connectors : List StepThree.ToolConnector) (saved : Bool) : Prop :=
  analyses ≠ []
    ∧ (∀ a ∈ analyses, ∀ t ∈ toolListOf a.toolSuggestion,
        ∃ c ∈ connectors, c.status = "active" ∧ c.connector_type = mapTool t)
    ∧ saved = true

/-! Concrete inputs used by counterexamples and witnesses. -/

/-- A question whose text is exactly "database". -/
def qDatabaseOnly : Question :=
  { id := some "QD", questionNumber := none, process := none,
    subProcess := none, question := some "database", text := none }

/-- A question mentioning SQL. -/
def qSql : Question :=
  { id := some "QS", questionNumber := some "1", process := some "Security",
    subProcess := none, question := some "Review SQL permissions", text := none }

/-- A question mentioning both a ticket and a database. -/
def qTicketDatabase : Question :=
  { id := some "QT", questionNumber := some "2", process := some "Change",
    subProcess := none, question := some "Close the ticket about the database", text := none }

/-- A question about email, classified outside the claimed vocabulary. -/
def qEmail : Question :=
  { id := some "QE", questionNumber := some "3", process := some "HR",
    subProcess := none, question := some "Verify email retention policy", text := none }

/-- The question of the duplicate-insert failing input. -/
def qAccess : Question :=
  { id := some "Q1", questionNumber := some "1", process := some "Access Management",
    subProcess := none, question := some "What database tables store user access?", text := none }

/-- A Step-3 analysis suggesting the SQL Server DB tool. -/
def analysisSql : StepThree.QuestionAnalysis :=
  { questionId := "Q1"
    originalQuestion := "What are the access controls on the SQL database?"
    category := "Security"
    subcategory := "Access"
    aiPrompt := "Analyze the access controls"
    toolSuggestion := ToolSel.single "SQL Server DB"
    connectorReason := "SQL data lives in the database"
    connectorToUse := ToolSel.single "SQL Server DB" }

/-- A matching-type connector whose status is failed, not active. -/
def failedSqlConnector : StepThree.ToolConnector :=
  { id := 1, connector_type := "SQL Server DB", ciId := "CI1", status := "failed" }

/-- A witness question answered successfully by the analyze call. -/
def qOk : Question :=
  { id := some "Q1", questionNumber := some "1", process := some "P1",
    subProcess := none, question := some "What are the access controls on the SQL database?",
    text := none }

/-- A witness question whose analyze call throws. -/
def qBoom : Question :=
  { id := some "Q7", questionNumber := some "7", process := some "P7",
    subProcess := none, question := some "Summarize the change tickets", text := none }

/-- The analysis the successful analyze call returns for `qOk`. -/
def analysisOk : StepThree.QuestionAnalysis :=
  { questionId := "Q1"
    originalQuestion := "What are the access controls on the SQL database?"
    category := "P1"
    subcategory := "Unknown"
    aiPrompt := "Analyze the question"
    toolSuggestion := ToolSel.single "SQL Server DB"
    connectorReason := "Based on the question content"
    connectorToUse := ToolSel.single "SQL Server DB" }

/-- A witness analyze API: throws for `qBoom`, answers `analysisOk`
otherwise. -/
def apiBoom : Question → Except String (List StepThree.QuestionAnalysis) :=
  fun q => if q = qBoom then Except.error "LLM call failed" else Except.ok [analysisOk]

/-- An active SQL Server DB connector for the Step-4 witness. -/
def connProdSql : StepFour.ToolConnector :=
  { id := 1, connectorName := "Production SQL Server", connectorType := "SQL Server DB",
    ciId := "CI1", status := "active" }

/-- A Step-4 analysis whose legacy tool id maps to the active connector. -/
def analysisLegacySql : StepFour.QuestionAnalysis :=
  { id := "Q1", originalQuestion := "question one", category := "cat", subcategory := "sub",
    prompt := none, toolSuggestion := "sql_server", connectorReason := "r",
    connectorToUse := "sql_server" }

/-- A Step-4 analysis whose tool has no connector configured. -/
def analysisJira : StepFour.QuestionAnalysis :=
  { id := "Q2", originalQuestion := "question two", category := "cat", subcategory := "sub",
    prompt := none, toolSuggestion := "Jira", connectorReason := "r",
    connectorToUse := "Jira" }

/-- A witness agent API: succeeds for Q1, fails otherwise. -/
def apiAgents : String → Except String StepFour.AgentResponse :=
  fun qid => if qid = "Q1" then Except.ok { analysis := none, dataPoints := none, findings := none }
    else Except.error "agent failed"

/-- A fixed pseudorandom draw for the Step-4 witness. -/
def randFixed : String → Nat := fun _ => 7

/-- An execution left in the failed state, for the Step-4 gate witness. -/
def execFailed : StepFour.AgentExecution :=
  { questionId := "Q1", status := StepFour.ExecStatus.failed, result := none,
    error := some "agent failed" }

/-- An agent response with every optional field absent. -/
def respEmpty : StepFour.AgentResponse :=
  { analysis := none, dataPoints := none, findings := none }

/-! Helper lemmas shared by several claim theorems. -/

/-- The first classifier rule: a hit on any of database / sql / table yields
the literal "SQL Server". -/
theorem determineToolSuggestion_firstRule (q : Question)
    (h : includes (Routes.lowerText q) "database" = true
      ∨ includes (Routes.lowerText q) "sql" = true
      ∨ includes (Routes.lowerText q) "table" = true) :
    Routes.determineToolSuggestion q = "SQL Server" := by
  unfold Routes.determineToolSuggestion Routes.classifyText
  rcases h with h | h | h <;> rw [h] <;> simp

/-- The processed count of the analyze loop is the question count. -/
theorem analyzeAll_snd (api : Question → Except String (List StepThree.QuestionAnalysis))
    (qs : List Question) : (StepThree.analyzeAll api qs).2 = qs.length := by
  induction qs with
  | nil => rfl
  | cons q rest ih => simp [StepThree.analyzeAll, ih]

/-- The accumulated analyses of the analyze loop, question by question. -/
theorem analyzeAll_fst (api : Question → Except String (List StepThree.QuestionAnalysis))
    (qs : List Question) :
    (StepThree.analyzeAll api qs).1 = (qs.map (StepThree.perQuestion api)).flatten := by
  induction qs with
  | nil => rfl
  | cons q rest ih => simp [StepThree.analyzeAll, ih]

end Audit

namespace Audit

/-- Claim C1, as stated, is false: on a question whose text is exactly
"database" the classifier returns "SQL Server", not "SQL Server DB". -/
theorem determineToolSuggestion_database_ne_sqlServerDB :
    includes (Routes.lowerText qDatabaseOnly) "database" = true
    ∧ Routes.determineToolSuggestion qDatabaseOnly = "SQL Server"
    ∧ Routes.determineToolSuggestion qDatabaseOnly ≠ "SQL Server DB" := by
  decide

/-- Claim C1 (amended): for every question whose lower-cased text contains
any of the substrings "database", "sql" or "table", `determineToolSuggestion`
returns the ToolType "SQL Server". -/
theorem determineToolSuggestion_sqlRule (q : Question)
    (h : includes (Routes.lowerText q) "database" = true
      ∨ includes (Routes.lowerText q) "sql" = true
      ∨ includes (Routes.lowerText q) "table" = true) :
    Routes.determineToolSuggestion q = "SQL Server" :=
  determineToolSuggestion_firstRule q h

/-- Witness for the amended claim C1, at a question mentioning SQL. -/
theorem determineToolSuggestion_sqlRule_witness :
    Routes.determineToolSuggestion qSql = "SQL Server" :=
  determineToolSuggestion_sqlRule qSql (Or.inr (Or.inl (by decide)))

/-- Claim C7: rules are tested in priority order and the first match wins;
a question containing both "ticket" and "database" gets the same suggestion
as a question containing only "database", never the ServiceNow one. -/
theorem determineToolSuggestion_ruleOrder (q : Question)
    (ht : includes (Routes.lowerText q) "ticket" = true)
    (hd : includes (Routes.lowerText q) "database" = true) :
    Routes.determineToolSuggestion q = Routes.determineToolSuggestion qDatabaseOnly
    ∧ Routes.determineToolSuggestion q ≠ "ServiceNow" := by
  have h := determineToolSuggestion_firstRule q (Or.inl hd)
  rw [h]
  exact ⟨by decide, by decide⟩

/-- Witness for claim C7, at a question mentioning both a ticket and a
database. -/
theorem determineToolSuggestion_ruleOrder_witness :
    Routes.determineToolSuggestion qTicketDatabase
        = Routes.determineToolSuggestion qDatabaseOnly
    ∧ Routes.determineToolSuggestion qTicketDatabase ≠ "ServiceNow" :=
  determineToolSuggestion_ruleOrder qTicketDatabase (by decide) (by decide)

/-- Claim C5: a per-question classification failure degrades to the fixed
fallback analysis, the failing question still counts as processed, the batch
is the concatenation of every question's own result, and any question whose
call succeeds contributes its returned analysis. -/
theorem analyzeAll_fallbackOnError
    (api : Question → Except String (List StepThree.QuestionAnalysis))
    (qs : List Question) (q q2 : Question) (a2 : StepThree.QuestionAnalysis)
    (rest2 : List StepThree.QuestionAnalysis) (e : String)
    (hmem : q ∈ qs) (herr : api q = Except.error e)
    (hok : api q2 = Except.ok (a2 :: rest2)) :
    (StepThree.analyzeAll api qs).2 = qs.length
    ∧ (StepThree.analyzeAll api qs).1 = (qs.map (StepThree.perQuestion api)).flatten
    ∧ StepThree.perQuestion api q = [StepThree.fallbackAnalysis q]
    ∧ (StepThree.fallbackAnalysis q).toolSuggestion = ToolSel.single "SQL Server DB"
    ∧ (StepThree.fallbackAnalysis q).connectorReason = "Fallback due to analysis error"
    ∧ StepThree.perQuestion api q2 = [a2] := by
  refine ⟨analyzeAll_snd api qs, analyzeAll_fst api qs, ?_, rfl, rfl, ?_⟩
  · simp [StepThree.perQuestion, herr]
  · simp [StepThree.perQuestion, hok]

/-- Witness for claim C5: one throwing question among two leaves the other
answered and gets the fallback analysis. -/
theorem analyzeAll_fallbackOnError_witness :
    StepThree.perQuestion apiBoom qBoom = [StepThree.fallbackAnalysis qBoom]
    ∧ (StepThree.fallbackAnalysis qBoom).connectorReason = "Fallback due to analysis error"
    ∧ (StepThree.analyzeAll apiBoom [qOk, qBoom]).2 = 2
    ∧ StepThree.perQuestion apiBoom qOk = [analysisOk] := by
  have h := analyzeAll_fallbackOnError apiBoom [qOk, qBoom] qBoom qOk analysisOk []
    "LLM call failed" (by decide) (by rfl) (by rfl)
  exact ⟨h.2.2.1, h.2.2.2.2.1, h.1, h.2.2.2.2.2⟩

/-- Element lookup through the indexed map of `handleConnectorChange`. -/
theorem mapIdxFrom_getElem (f : Nat → StepThree.QuestionAnalysis → StepThree.QuestionAnalysis)
    (s j : Nat) (l : List StepThree.QuestionAnalysis) :
    (StepThree.mapIdxFrom f s l)[j]? = (l[j]?).map (f (s + j)) := by
  induction l generalizing s j with
  | nil => simp [StepThree.mapIdxFrom]
  | cons a rest ih =>
    cases j with
    | zero => simp [StepThree.mapIdxFrom]
    | succ j2 =>
      simp only [StepThree.mapIdxFrom, List.getElem?_cons_succ, ih]
      have : s + (j2 + 1) = s + 1 + j2 := by omega
      rw [this]

/-- The collapsing match of `handleConnectorChange` is the identity on the
tool selection. -/
theorem toolSelMatch_id (t : ToolSel) :
    (match t with
      | ToolSel.multiple ts => ToolSel.multiple ts
      | ToolSel.single s => ToolSel.single s) = t := by
  cases t <;> rfl

/-- Claim C9: `handleConnectorChange` ignores the selected connector name,
and the updated analysis's `connectorToUse` is exactly its own
`toolSuggestion`. -/
theorem handleConnectorChange_ignoresName (questionId name name2 : String) (i : Nat)
    (analyses : List StepThree.QuestionAnalysis) :
    StepThree.handleConnectorChange questionId name i analyses
      = StepThree.handleConnectorChange questionId name2 i analyses
    ∧ (StepThree.handleConnectorChange questionId name i analyses)[i]?
      = (analyses[i]?).map fun a => { a with connectorToUse := a.toolSuggestion } := by
  refine ⟨rfl, ?_⟩
  rw [StepThree.handleConnectorChange, mapIdxFrom_getElem]
  cases h : analyses[i]? with
  | none => rfl
  | some a => simp [toolSelMatch_id]

/-- Claim C2, as stated, is false: with a single analysis suggesting
SQL Server DB, a matching-type connector whose status is failed (not active)
and a saved batch, the code's gate is true while the specified gate, which
requires an active connector, is false. -/
theorem canProceedGate_activeNotRequired :
    ¬ (StepThree.canProceedGate [analysisSql] [failedSqlConnector] true = true
        ↔ specCanProceed [analysisSql] [failedSqlConnector] true) := by
  simp only [specCanProceed]
  decide

/-- Claim C2 (amended): the Step-3 gate is true exactly when at least one
analysis exists, every suggested tool is a non-blank string with a connector
of the legacy-mapped matching type registered for the CI regardless of that
connector's status, and the batch has been saved since the last edit. -/
theorem canProceedGate_iff (analyses : List StepThree.QuestionAnalysis)
    (connectors : List StepThree.ToolConnector) (saved : Bool) :
    StepThree.canProceedGate analyses connectors saved = true ↔
      (analyses ≠ []
        ∧ (∀ a ∈ analyses, ∀ t ∈ toolListOf a.toolSuggestion,
            (∃ c ∈ connectors, c.connector_type = mapTool t)
              ∧ t ≠ "" ∧ trimList t.data ≠ [])
        ∧ saved = true) := by
  simp [StepThree.canProceedGate, List.all_eq_true, List.any_eq_true,
    List.length_pos, and_assoc]

/-- Claim C3 is right and the code is wrong: `createQuestionAnalyses` is a
plain insert against the `unique_application_question` constraint, so
analyzing the same question a second time raises a duplicate-key error
instead of upserting. -/
theorem createQuestionAnalyses_duplicateKey :
    Routes.createQuestionAnalyses [] (Routes.analyzeRouteAnalyses 1 [qAccess])
      = Except.ok (Routes.analyzeRouteAnalyses 1 [qAccess])
    ∧ Routes.createQuestionAnalyses (Routes.analyzeRouteAnalyses 1 [qAccess])
        (Routes.analyzeRouteAnalyses 1 [qAccess])
      = Except.error
          "duplicate key value violates unique constraint unique_application_question" :=
  ⟨rfl, rfl⟩

/-- Every suggestion the classifier emits lies in its own six-value set. -/
theorem determineToolSuggestion_vocab (q : Question) :
    Routes.determineToolSuggestion q ∈ classifierToolVocab := by
  unfold Routes.determineToolSuggestion Routes.classifyText
  repeat' split
  all_goals decide

/-- Every connector id the classifier emits lies in its own six-value set. -/
theorem connectorOf_vocab (s : String) :
    Routes.connectorOf s ∈ classifierConnectorVocab := by
  unfold Routes.connectorOf
  repeat' split
  all_goals decide

/-- Claim C6, as stated, is false: a question about email is classified as
"Outlook" / "outlook", both outside the claimed closed vocabulary, and the
analyze route persists the value untouched. -/
theorem analyzeRoute_outsideVocab :
    Routes.determineToolSuggestion qEmail = "Outlook"
    ∧ "Outlook" ∉ claimedToolVocab
    ∧ Routes.determineConnector qEmail = "outlook"
    ∧ "outlook" ∉ claimedToolVocab
    ∧ Routes.createQuestionAnalyses [] (Routes.analyzeRouteAnalyses 1 [qEmail])
        = Except.ok (Routes.analyzeRouteAnalyses 1 [qEmail])
    ∧ (Routes.analyzeRouteAnalyses 1 [qEmail]).map Routes.AnalysisRow.toolSuggestion
        = ["Outlook"] :=
  ⟨by decide, by decide, by decide, by decide, rfl, by decide⟩

/-- Claim C6 (amended): the values the pipeline produces form the
classifier's own closed sets — SQL Server, Outlook, ServiceNow, NAS Path,
Gnosis Path, Manual Review and their snake_case connector ids — and the
analyze route stores the classifier output verbatim, with no mapping or
rejection against the specified vocabulary. -/
theorem analyzeRoute_closedVocab (q : Question) (appId : Nat) (qs : List Question) :
    Routes.determineToolSuggestion q ∈ classifierToolVocab
    ∧ Routes.determineConnector q ∈ classifierConnectorVocab
    ∧ (Routes.analyzeRouteAnalyses appId qs).map Routes.AnalysisRow.toolSuggestion
        = qs.map Routes.determineToolSuggestion
    ∧ (Routes.analyzeRouteAnalyses appId qs).map Routes.AnalysisRow.connectorToUse
        = qs.map Routes.determineConnector := by
  refine ⟨determineToolSuggestion_vocab q, connectorOf_vocab _, ?_, ?_⟩ <;>
    simp [Routes.analyzeRouteAnalyses, List.map_map, Function.comp]

/-- A dispatched question ends at `no_connector` exactly when no active
connector of its legacy-mapped tool type exists. -/
theorem execFor_status_no_connector (connectors : List StepFour.ToolConnector)
    (api : String → Except String StepFour.AgentResponse) (rand : String → Nat)
    (now : String) (x : StepFour.QuestionAnalysis) :
    ((StepFour.execFor connectors api rand now x).status == StepFour.ExecStatus.no_connector)
      = (StepFour.getConnectorForTool connectors x.toolSuggestion).isNone := by
  unfold StepFour.execFor
  cases h : StepFour.getConnectorForTool connectors x.toolSuggestion with
  | none => simp
  | some c => cases h2 : api x.id <;> simp

/-- Every dispatched question ends in a terminal state. -/
theorem execFor_terminal (connectors : List StepFour.ToolConnector)
    (api : String → Except String StepFour.AgentResponse) (rand : String → Nat)
    (now : String) (x : StepFour.QuestionAnalysis) :
    ((StepFour.execFor connectors api rand now x).status == StepFour.ExecStatus.completed
      || (StepFour.execFor connectors api rand now x).status == StepFour.ExecStatus.failed
      || (StepFour.execFor connectors api rand now x).status == StepFour.ExecStatus.no_connector)
      = true := by
  unfold StepFour.execFor
  cases h : StepFour.getConnectorForTool connectors x.toolSuggestion with
  | none => simp
  | some c => cases h2 : api x.id <;> simp

/-- Claim C4: after a batch run the questions without an active connector of
the legacy-mapped required type are exactly the ones ending `no_connector`
(with no result and no execution attempted), every other question ends
`completed` or `failed`, none stays `pending` or `running`, and one
question's agent outcome never changes a sibling's record. -/
theorem executeAllAgents_partition (connectors : List StepFour.ToolConnector)
    (api api2 : String → Except String StepFour.AgentResponse)
    (rand : String → Nat) (now : String)
    (analyses : List StepFour.QuestionAnalysis) (a b : StepFour.QuestionAnalysis)
    (hagree : api a.id = api2 a.id)
    (hnone : StepFour.getConnectorForTool connectors b.toolSuggestion = none) :
    (StepFour.executeAllAgents connectors api rand now analyses).countP
        (fun e => e.status == StepFour.ExecStatus.no_connector)
      = analyses.countP
          (fun x => (StepFour.getConnectorForTool connectors x.toolSuggestion).isNone)
    ∧ (StepFour.executeAllAgents connectors api rand now analyses).map
        (fun e => e.status == StepFour.ExecStatus.no_connector)
      = analyses.map
          (fun x => (StepFour.getConnectorForTool connectors x.toolSuggestion).isNone)
    ∧ (StepFour.executeAllAgents connectors api rand now analyses).all
        (fun e => e.status == StepFour.ExecStatus.completed
          || e.status == StepFour.ExecStatus.failed
          || e.status == StepFour.ExecStatus.no_connector) = true
    ∧ (StepFour.executeAllAgents connectors api rand now analyses).all
        (fun e => !(e.status == StepFour.ExecStatus.pending)
          && !(e.status == StepFour.ExecStatus.running)) = true
    ∧ StepFour.execFor connectors api rand now b
        = { questionId := b.id, status := StepFour.ExecStatus.no_connector,
            result := none, error := some "No connector configured for this tool type" }
    ∧ StepFour.execFor connectors api rand now a
        = StepFour.execFor connectors api2 rand now a := by
  have hfun :
      ((fun e : StepFour.AgentExecution => e.status == StepFour.ExecStatus.no_connector)
          ∘ StepFour.execFor connectors api rand now)
        = fun x => (StepFour.getConnectorForTool connectors x.toolSuggestion).isNone :=
    funext fun x => execFor_status_no_connector connectors api rand now x
  refine ⟨?_, ?_, ?_, ?_, ?_, ?_⟩
  · rw [StepFour.executeAllAgents, List.countP_map, hfun]
  · rw [StepFour.executeAllAgents, List.map_map, hfun]
  · rw [StepFour.executeAllAgents, List.all_eq_true]
    intro e he
    obtain ⟨x, _, hx⟩ := List.mem_map.mp he
    rw [← hx]
    exact execFor_terminal connectors api rand now x
  · rw [StepFour.executeAllAgents, List.all_eq_true]
    intro e he
    obtain ⟨x, _, hx⟩ := List.mem_map.mp he
    rw [← hx]
    unfold StepFour.execFor
    cases h : StepFour.getConnectorForTool connectors x.toolSuggestion with
    | none => simp
    | some c => cases h2 : api x.id <;> simp
  · simp [StepFour.execFor, hnone]
  · simp [StepFour.execFor, hagree]

/-- Witness for claim C4: with one active SQL Server DB connector, the Jira
question of a two-question batch ends `no_connector` with no execution
attempted. -/
theorem executeAllAgents_partition_witness :
    StepFour.execFor [connProdSql] apiAgents randFixed "2025-01-01T00:00:00Z" analysisJira
      = { questionId := "Q2", status := StepFour.ExecStatus.no_connector,
          result := none, error := some "No connector configured for this tool type" } :=
  (executeAllAgents_partition [connProdSql] apiAgents apiAgents randFixed
    "2025-01-01T00:00:00Z" [analysisLegacySql, analysisJira] analysisLegacySql
    analysisJira rfl (by decide)).2.2.2.2.1

/-- Claim C8: the Step-4 gate is true only when the execution set is
non-empty and every execution is `completed`; any execution left in another
state keeps the gate false. -/
theorem canProceedStep4_allCompleted (execs : List StepFour.AgentExecution)
    (e : StepFour.AgentExecution) (hmem : e ∈ execs)
    (hne : e.status ≠ StepFour.ExecStatus.completed) :
    (StepFour.canProceedStep4 execs = true
      ↔ execs ≠ [] ∧ ∀ x ∈ execs, x.status = StepFour.ExecStatus.completed)
    ∧ StepFour.canProceedStep4 execs = false := by
  have hiff : StepFour.canProceedStep4 execs = true
      ↔ execs ≠ [] ∧ ∀ x ∈ execs, x.status = StepFour.ExecStatus.completed := by
    simp [StepFour.canProceedStep4, List.length_pos, List.countP_eq_length]
  refine ⟨hiff, ?_⟩
  rcases h : StepFour.canProceedStep4 execs with _ | _
  · rfl
  · exact absurd ((hiff.mp h).2 e hmem) hne

/-- Witness for claim C8: a singleton batch whose execution failed keeps the
gate false. -/
theorem canProceedStep4_allCompleted_witness :
    StepFour.canProceedStep4 [execFailed] = false :=
  (canProceedStep4_allCompleted [execFailed] execFailed (by decide) (by decide)).2

/-- Claim C10: normalization of a completed execution defaults a missing
risk level to "Low" and a missing compliance status to "Compliant"; a missing
or zero dataPoints field becomes a drawn value between 10 and 59 inclusive,
so two normalizations of the identical response may disagree on `records`. -/
theorem normalizeResult_defaults (resp : StepFour.AgentResponse)
    (oq cn now : String) (r r2 : Nat)
    (hrisk : resp.analysis.bind StepFour.AnalysisPayload.riskLevel = none)
    (hcomp : resp.analysis.bind StepFour.AnalysisPayload.complianceStatus = none)
    (hdp : resp.dataPoints = none ∨ resp.dataPoints = some 0)
    (hr : r % 50 ≠ r2 % 50) :
    (StepFour.normalizeResult resp oq cn now r).riskLevel = "Low"
    ∧ (StepFour.normalizeResult resp oq cn now r).complianceStatus = "Compliant"
    ∧ 10 ≤ (StepFour.normalizeResult resp oq cn now r).records
    ∧ (StepFour.normalizeResult resp oq cn now r).records ≤ 59
    ∧ (StepFour.normalizeResult resp oq cn now r).records
        ≠ (StepFour.normalizeResult resp oq cn now r2).records := by
  have hrec : ∀ s : Nat, (StepFour.normalizeResult resp oq cn now s).records = s % 50 + 10 := by
    intro s
    rcases hdp with h | h <;> simp [StepFour.normalizeResult, jsOrNat, h]
  have h50 : r % 50 < 50 := Nat.mod_lt r (by omega)
  refine ⟨?_, ?_, ?_, ?_, ?_⟩
  · simp [StepFour.normalizeResult, jsOr, hrisk]
  · simp [StepFour.normalizeResult, jsOr, hcomp]
  · rw [hrec r]; omega
  · rw [hrec r]; omega
  · rw [hrec r, hrec r2]; omega

/-- Witness for claim C10: the empty response, normalized under two draws,
keeps the defaults and yields two different record counts. -/
theorem normalizeResult_defaults_witness :
    (StepFour.normalizeResult respEmpty "q" "conn" "now" 0).riskLevel = "Low"
    ∧ (StepFour.normalizeResult respEmpty "q" "conn" "now" 0).complianceStatus = "Compliant"
    ∧ 10 ≤ (StepFour.normalizeResult respEmpty "q" "conn" "now" 0).records
    ∧ (StepFour.normalizeResult respEmpty "q" "conn" "now" 0).records ≤ 59
    ∧ (StepFour.normalizeResult respEmpty "q" "conn" "now" 0).records
        ≠ (StepFour.normalizeResult respEmpty "q" "conn" "now" 1).records :=
  normalizeResult_defaults respEmpty "q" "conn" "now" 0 1 rfl rfl (Or.inl rfl) (by decide)

end Audit
